import Mathlib

/-!
Verification development for the quiz-attempt lifecycle engine of the
quiz-app repository.  The definitions below are a shallow embedding of
the TypeScript handlers:

* `startQuizAttempt`    — src/server/src/index.ts (embedded handler)
* `getCurrentQuizState` — src/server/src/handlers/get_current_quiz_state.ts
* `submitQuizAnswer`    — src/server/src/handlers/submit_quiz_answer.ts
* `completeQuizAttempt` — handlers/complete_quiz_attempt.ts (src/unnamed/part_008)

The database (drizzle/postgres) is modelled as lists of rows; `SELECT ...
WHERE` becomes `List.filter`, `innerJoin` becomes a nested lookup,
`UPDATE ... WHERE id = x` becomes `List.map` over the rows, and `INSERT`
appends.  Timestamps are epoch milliseconds (`Int`), matching
`Date.getTime()`; `Math.floor(diff / 1000)` is `Int.fdiv diff 1000`.
Thrown `Error(msg)` becomes `Except.error msg`.
-/

namespace QuizApp

/-- The five answer options, `questionOptionEnum` in db/schema.ts. -/
inductive QOption where
  | A | B | C | D | E
deriving DecidableEq

/-- `quizAttemptStatusEnum` in db/schema.ts. -/
inductive AttemptStatus where
  | IN_PROGRESS | COMPLETED | TIME_OUT
deriving DecidableEq

/-- Row of `quizPackagesTable` (fields the engine reads). -/
structure QuizPackage where
  id : Nat
  title : String
  created_by : Nat
deriving DecidableEq

/-- Row of `quizQuestionsTable`. -/
structure QuizQuestion where
  id : Nat
  quiz_package_id : Nat
  question_text : String
  option_a : String
  option_b : String
  option_c : String
  option_d : String
  option_e : String
  correct_answer : QOption
  order_index : Nat
deriving DecidableEq

/-- Row of `quizAttemptsTable`.  `started_at` / `completed_at` are epoch
milliseconds. -/
structure QuizAttempt where
  id : Nat
  user_id : Nat
  quiz_package_id : Nat
  status : AttemptStatus
  score : Nat
  total_questions : Nat
  current_question_index : Nat
  started_at : Int
  completed_at : Option Int
  time_remaining_seconds : Int
deriving DecidableEq

/-- Row of `quizAnswersTable` (the answer ledger). -/
structure QuizAnswer where
  id : Nat
  attempt_id : Nat
  question_id : Nat
  selected_answer : QOption
  is_correct : Bool
  answered_at : Int
deriving DecidableEq

/-- The database state: one list of rows per table, plus the serial-id
counters of the two tables the engine inserts into. -/
structure DB where
  packages : List QuizPackage
  questions : List QuizQuestion
  attempts : List QuizAttempt
  answers : List QuizAnswer
  nextAttemptId : Nat
  nextAnswerId : Nat
deriving DecidableEq

/-- `CurrentQuizState` of schema.ts: note `current_question` is the full
`quizQuestionSchema`, correct_answer field included. -/
structure CurrentQuizState where
  attempt_id : Nat
  quiz_package_id : Nat
  quiz_title : String
  current_question_index : Nat
  total_questions : Nat
  time_remaining_seconds : Int
  current_question : Option QuizQuestion
deriving DecidableEq

/-- One row of `QuizResult.answers` (ledger entry joined to its question). -/
structure AnswerReview where
  question_id : Nat
  question_text : String
  selected_answer : QOption
  correct_answer : QOption
  is_correct : Bool
  option_a : String
  option_b : String
  option_c : String
  option_d : String
  option_e : String
deriving DecidableEq

/-- `QuizResult` of schema.ts. -/
structure QuizResult where
  attempt_id : Nat
  score : Nat
  total_questions : Nat
  correct_answers : Nat
  incorrect_answers : Nat
  time_taken_seconds : Int
  completed_at : Option Int
  answers : List AnswerReview
deriving DecidableEq

/-- `Math.floor((now.getTime() - started_at.getTime()) / 1000)`. -/
def elapsedSeconds (started_at now : Int) : Int :=
  (now - started_at).fdiv 1000

/-- Insert a question into a list sorted by `order_index` (helper for
`sortByOrderIndex`). -/
def insertByOrder (q : QuizQuestion) : List QuizQuestion → List QuizQuestion
  | [] => [q]
  | x :: xs =>
    if q.order_index ≤ x.order_index then q :: x :: xs
    else x :: insertByOrder q xs

/-- Model of `ORDER BY order_index` (insertion sort; order_index is unique
within a package, so any sort by it agrees). -/
def sortByOrderIndex : List QuizQuestion → List QuizQuestion
  | [] => []
  | x :: xs => insertByOrder x (sortByOrderIndex xs)

/-- The `InvalidState` message of the 110-question gate in
`startQuizAttempt`. -/
def countQuestionsMsg (n : Nat) : String :=
  "Quiz package must have exactly 110 questions, found " ++ toString n

/-- `startQuizAttempt` (src/server/src/index.ts, embedded handler).
Validates the package and its question count, resumes an existing
IN_PROGRESS attempt for (user, package) or creates a fresh one, and
returns the snapshot with the question at the attempt's current index. -/
def startQuizAttempt (quiz_package_id userId : Nat) (now : Int) (db : DB) :
    Except String (DB × CurrentQuizState) :=
  match (db.packages.filter (fun p => p.id == quiz_package_id)).head? with
  | none =>
    .error ("Quiz package with ID " ++ toString quiz_package_id ++ " not found")
  | some quizPackage =>
    let questionCount :=
      (db.questions.filter (fun q => q.quiz_package_id == quiz_package_id)).length
    if questionCount ≠ 110 then
      .error (countQuestionsMsg questionCount)
    else
      let existingAttempts := db.attempts.filter (fun a =>
        a.user_id == userId && a.quiz_package_id == quiz_package_id &&
          a.status == AttemptStatus.IN_PROGRESS)
      let dbAndAttempt : DB × QuizAttempt :=
        match existingAttempts.head? with
        | some a => (db, a)
        | none =>
          let a : QuizAttempt :=
            { id := db.nextAttemptId
              user_id := userId
              quiz_package_id := quiz_package_id
              status := AttemptStatus.IN_PROGRESS
              score := 0
              total_questions := questionCount
              current_question_index := 0
              started_at := now
              completed_at := none
              time_remaining_seconds := 7200 }
          ({ db with
              attempts := db.attempts ++ [a]
              nextAttemptId := db.nextAttemptId + 1 }, a)
      let attempt := dbAndAttempt.2
      let currentQuestion := (db.questions.filter (fun q =>
        q.quiz_package_id == quiz_package_id &&
          q.order_index == attempt.current_question_index)).head?
      .ok (dbAndAttempt.1,
        { attempt_id := attempt.id
          quiz_package_id := attempt.quiz_package_id
          quiz_title := quizPackage.title
          current_question_index := attempt.current_question_index
          total_questions := attempt.total_questions
          time_remaining_seconds := attempt.time_remaining_seconds
          current_question := currentQuestion })

/-- `getCurrentQuizState` (handlers/get_current_quiz_state.ts).  A read
that, on the timeout path, also writes: when the recomputed remaining
time is 0 the attempt is transitioned to TIME_OUT and `none` is
returned. -/
def getCurrentQuizState (attemptId : Nat) (now : Int) (db : DB) :
    DB × Option CurrentQuizState :=
  match (db.attempts.filter (fun a => a.id == attemptId)).head? with
  | none => (db, none)
  | some attempt =>
    match (db.packages.filter (fun p => p.id == attempt.quiz_package_id)).head? with
    | none => (db, none)
    | some pkg =>
      if attempt.status == AttemptStatus.COMPLETED ||
          attempt.status == AttemptStatus.TIME_OUT then
        (db, none)
      else
        let elapsed := elapsedSeconds attempt.started_at now
        let actualTimeRemaining := max 0 (attempt.time_remaining_seconds - elapsed)
        if actualTimeRemaining == 0 then
          ({ db with
              attempts := db.attempts.map (fun a =>
                if a.id == attemptId then
                  { a with
                      status := AttemptStatus.TIME_OUT
                      completed_at := some now
                      time_remaining_seconds := 0 }
                else a) }, none)
        else
          let currentQuestion :=
            if attempt.current_question_index < attempt.total_questions then
              (db.questions.filter (fun q =>
                q.quiz_package_id == attempt.quiz_package_id &&
                  q.order_index == attempt.current_question_index)).head?
            else none
          (db, some
            { attempt_id := attempt.id
              quiz_package_id := attempt.quiz_package_id
              quiz_title := pkg.title
              current_question_index := attempt.current_question_index
              total_questions := attempt.total_questions
              time_remaining_seconds := actualTimeRemaining
              current_question := currentQuestion })

/-- `submitQuizAnswer` (handlers/submit_quiz_answer.ts).  Validates the
attempt and the submitted question id, appends one ledger entry, advances
the pointer, recomputes remaining time from `started_at` against the
fixed 7200-second budget, finalizes the attempt when the last question
was answered or time ran out, and returns the next snapshot with the next
question's `correct_answer` overwritten by `A`. -/
def submitQuizAnswer (attempt_id question_id : Nat) (selected_answer : QOption)
    (userId : Nat) (now : Int) (db : DB) :
    Except String (DB × CurrentQuizState) :=
  match (db.attempts.filter (fun a =>
      a.id == attempt_id && a.user_id == userId &&
        a.status == AttemptStatus.IN_PROGRESS)).head? with
  | none => .error "Quiz attempt not found or not accessible"
  | some attempt =>
    match (db.packages.filter (fun p => p.id == attempt.quiz_package_id)).head? with
    | none => .error "Quiz attempt not found or not accessible"
    | some quizPackage =>
      let questions := sortByOrderIndex (db.questions.filter
        (fun q => q.quiz_package_id == attempt.quiz_package_id))
      if questions.isEmpty then
        .error "No questions found for this quiz"
      else
        match questions[attempt.current_question_index]? with
        | none => .error "Question ID does not match current question"
        | some currentQuestion =>
          if currentQuestion.id ≠ question_id then
            .error "Question ID does not match current question"
          else
            let isCorrect := currentQuestion.correct_answer == selected_answer
            let newAnswer : QuizAnswer :=
              { id := db.nextAnswerId
                attempt_id := attempt_id
                question_id := question_id
                selected_answer := selected_answer
                is_correct := isCorrect
                answered_at := now }
            let newScore := attempt.score + (if isCorrect then 1 else 0)
            let nextQuestionIndex := attempt.current_question_index + 1
            let isLastQuestion := decide (questions.length ≤ nextQuestionIndex)
            let elapsed := elapsedSeconds attempt.started_at now
            let timeRemaining : Int := max 0 (7200 - elapsed)
            let finalize := isLastQuestion || timeRemaining == 0
            let db' : DB :=
              { db with
                  answers := db.answers ++ [newAnswer]
                  nextAnswerId := db.nextAnswerId + 1
                  attempts := db.attempts.map (fun a =>
                    if a.id == attempt_id then
                      { a with
                          score := newScore
                          current_question_index := nextQuestionIndex
                          time_remaining_seconds := timeRemaining
                          status :=
                            if finalize then
                              (if timeRemaining == 0 then AttemptStatus.TIME_OUT
                               else AttemptStatus.COMPLETED)
                            else a.status
                          completed_at :=
                            if finalize then some now else a.completed_at }
                    else a) }
            let nextQuestion :=
              if finalize then none else questions[nextQuestionIndex]?
            let currentQuestionForResponse :=
              nextQuestion.map (fun q => { q with correct_answer := QOption.A })
            .ok (db',
              { attempt_id := attempt_id
                quiz_package_id := attempt.quiz_package_id
                quiz_title := quizPackage.title
                current_question_index := nextQuestionIndex
                total_questions := questions.length
                time_remaining_seconds := timeRemaining
                current_question := currentQuestionForResponse })

/-- `getQuizResults` (private helper of complete_quiz_attempt.ts):
re-reads the attempt and joins the ledger to the questions table.
Returns `none` when the attempt row is absent (the TypeScript would crash
there; the caller only invokes it for an existing attempt). -/
def getQuizResults (db : DB) (attemptId : Nat) : Option QuizResult :=
  match (db.attempts.filter (fun a => a.id == attemptId)).head? with
  | none => none
  | some attempt =>
    let answersWithQuestions :=
      (db.answers.filter (fun ans => ans.attempt_id == attemptId)).filterMap
        (fun ans =>
          ((db.questions.filter (fun q => q.id == ans.question_id)).head?).map
            (fun q =>
              ({ question_id := ans.question_id
                 question_text := q.question_text
                 selected_answer := ans.selected_answer
                 correct_answer := q.correct_answer
                 is_correct := ans.is_correct
                 option_a := q.option_a
                 option_b := q.option_b
                 option_c := q.option_c
                 option_d := q.option_d
                 option_e := q.option_e } : AnswerReview)))
    let correctAnswers :=
      (answersWithQuestions.filter (fun a => a.is_correct)).length
    let incorrectAnswers := answersWithQuestions.length - correctAnswers
    let timeTakenSeconds : Int :=
      match attempt.completed_at with
      | some c => (c - attempt.started_at).fdiv 1000
      | none => 0
    some
      { attempt_id := attemptId
        score := attempt.score
        total_questions := attempt.total_questions
        correct_answers := correctAnswers
        incorrect_answers := incorrectAnswers
        time_taken_seconds := timeTakenSeconds
        completed_at := attempt.completed_at
        answers := answersWithQuestions }

/-- `completeQuizAttempt` (complete_quiz_attempt.ts, src/unnamed/part_008).
Idempotent on terminal attempts; on an IN_PROGRESS attempt it recomputes
the score from the ledger, marks the attempt COMPLETED and returns the
detailed results. -/
def completeQuizAttempt (attempt_id userId : Nat) (now : Int) (db : DB) :
    Except String (DB × QuizResult) :=
  match (db.attempts.filter (fun a =>
      a.id == attempt_id && a.user_id == userId)).head? with
  | none =>
    .error ("Quiz attempt " ++ toString attempt_id ++
      " not found or does not belong to user")
  | some attempt =>
    if attempt.status == AttemptStatus.COMPLETED ||
        attempt.status == AttemptStatus.TIME_OUT then
      match getQuizResults db attempt_id with
      | some r => .ok (db, r)
      | none => .error "results unavailable"
    else if attempt.status ≠ AttemptStatus.IN_PROGRESS then
      .error ("Quiz attempt " ++ toString attempt_id ++ " is not in progress")
    else
      let finalScore :=
        ((db.answers.filter (fun a => a.attempt_id == attempt_id)).filter
          (fun a => a.is_correct)).length
      let db' : DB :=
        { db with
            attempts := db.attempts.map (fun a =>
              if a.id == attempt_id then
                { a with
                    status := AttemptStatus.COMPLETED
                    completed_at := some now
                    score := finalScore }
              else a) }
      match getQuizResults db' attempt_id with
      | some r => .ok (db', r)
      | none => .error "results unavailable"

/-- The four engine operations, as a step on the database state (a failed
call leaves the database unchanged: every throw in the handlers precedes
the first write). -/
inductive Op where
  | start (quiz_package_id userId : Nat) (now : Int)
  | getState (attemptId : Nat) (now : Int)
  | submit (attempt_id question_id : Nat) (selected : QOption)
      (userId : Nat) (now : Int)
  | complete (attempt_id userId : Nat) (now : Int)

/-- Apply one operation to the database, keeping only the state effect. -/
def applyOp (db : DB) : Op → DB
  | .start p u now =>
    match startQuizAttempt p u now db with
    | .ok (db', _) => db'
    | .error _ => db
  | .getState a now => (getCurrentQuizState a now db).1
  | .submit a q s u now =>
    match submitQuizAnswer a q s u now db with
    | .ok (db', _) => db'
    | .error _ => db
  | .complete a u now =>
    match completeQuizAttempt a u now db with
    | .ok (db', _) => db'
    | .error _ => db

/-- A question of the concrete test package (id 100+i, order_index i,
correct answer B). -/
def mkQuestion (i : Nat) : QuizQuestion :=
  { id := 100 + i
    quiz_package_id := 1
    question_text := "q"
    option_a := "a"
    option_b := "b"
    option_c := "c"
    option_d := "d"
    option_e := "e"
    correct_answer := QOption.B
    order_index := i }

/-- Concrete database: package 1 with exactly 110 questions (all keyed B),
no attempts yet. -/
def leakDb : DB :=
  { packages := [{ id := 1, title := "t", created_by := 2 }]
    questions := (List.range 110).map mkQuestion
    attempts := []
    answers := []
    nextAttemptId := 5
    nextAnswerId := 9 }

/-- `leakDb` with the first question's answer key changed from B to C:
the two databases differ only in that secret. -/
def leakDbC : DB :=
  { leakDb with
      questions := ((List.range 110).map mkQuestion).map (fun q =>
        if q.order_index == 0 then { q with correct_answer := QOption.C } else q) }

/-- The attempt row `startQuizAttempt 1 1 0 leakDb` creates. -/
def startedAttempt : QuizAttempt :=
  { id := 5
    user_id := 1
    quiz_package_id := 1
    status := AttemptStatus.IN_PROGRESS
    score := 0
    total_questions := 110
    current_question_index := 0
    started_at := 0
    completed_at := none
    time_remaining_seconds := 7200 }

/-- `leakDb` after the attempt has been started at time 0. -/
def leakDb1 : DB :=
  { leakDb with attempts := [startedAttempt], nextAttemptId := 6 }

/-- Concrete database exhibiting a package whose live question count (1)
differs from the attempt's `total_questions` snapshot (110) — the state
an admin produces by deleting questions mid-attempt. -/
def staleCountDb : DB :=
  { packages := [{ id := 1, title := "t", created_by := 2 }]
    questions := [mkQuestion 0]
    attempts := [{ id := 7
                   user_id := 1
                   quiz_package_id := 1
                   status := AttemptStatus.IN_PROGRESS
                   score := 0
                   total_questions := 110
                   current_question_index := 0
                   started_at := 0
                   completed_at := none
                   time_remaining_seconds := 7200 }]
    answers := []
    nextAttemptId := 8
    nextAnswerId := 1 }

/-- A two-question package (keys B, B) with one IN_PROGRESS attempt at
index 0 — the small database used to instantiate witnesses. -/
def smallDb : DB :=
  { packages := [{ id := 1, title := "t", created_by := 2 }]
    questions := [mkQuestion 0, mkQuestion 1]
    attempts := [{ id := 7
                   user_id := 1
                   quiz_package_id := 1
                   status := AttemptStatus.IN_PROGRESS
                   score := 0
                   total_questions := 2
                   current_question_index := 0
                   started_at := 0
                   completed_at := none
                   time_remaining_seconds := 7200 }]
    answers := []
    nextAttemptId := 8
    nextAnswerId := 1 }

/-- The attempt row of `smallDb`. -/
def smallAtt : QuizAttempt :=
  { id := 7
    user_id := 1
    quiz_package_id := 1
    status := AttemptStatus.IN_PROGRESS
    score := 0
    total_questions := 2
    current_question_index := 0
    started_at := 0
    completed_at := none
    time_remaining_seconds := 7200 }

/-- `smallDb` with a three-entry ledger for attempt 7 (2 correct, 1
incorrect) and a stale running score of 42. -/
def ledgerDb : DB :=
  { smallDb with
      attempts := [{ smallAtt with score := 42, current_question_index := 3 }]
      answers :=
        [{ id := 1, attempt_id := 7, question_id := 100,
           selected_answer := QOption.B, is_correct := true, answered_at := 10 },
         { id := 2, attempt_id := 7, question_id := 100,
           selected_answer := QOption.A, is_correct := false, answered_at := 20 },
         { id := 3, attempt_id := 7, question_id := 100,
           selected_answer := QOption.B, is_correct := true, answered_at := 30 }]
      nextAnswerId := 4 }

/-- The attempt of `smallDb`, already timed out. -/
def terminalAtt : QuizAttempt :=
  { smallAtt with
      status := AttemptStatus.TIME_OUT
      completed_at := some 9000000
      time_remaining_seconds := 0 }

/-- `smallDb` with the attempt already timed out. -/
def terminalDb : DB :=
  { smallDb with attempts := [terminalAtt] }

/-- Fallback snapshot for result extraction. -/
def defaultSnap : CurrentQuizState :=
  { attempt_id := 0
    quiz_package_id := 0
    quiz_title := ""
    current_question_index := 0
    total_questions := 0
    time_remaining_seconds := 0
    current_question := none }

/-- Fallback result for result extraction. -/
def defaultResult : QuizResult :=
  { attempt_id := 0
    score := 0
    total_questions := 0
    correct_answers := 0
    incorrect_answers := 0
    time_taken_seconds := 0
    completed_at := none
    answers := [] }

/-- The (database, snapshot) pair of a concrete correct submission on
`smallDb` at t = 1000 ms. -/
def smallSubmitRes : DB × CurrentQuizState :=
  (submitQuizAnswer 7 100 QOption.B 1 1000 smallDb).toOption.getD
    (smallDb, defaultSnap)

/-- The snapshot of a concrete live read on `smallDb` at t = 1000 ms. -/
def smallGetSnap : CurrentQuizState :=
  ((getCurrentQuizState 7 1000 smallDb).2).getD defaultSnap

/-- The (database, result) pair of completing `ledgerDb`'s attempt. -/
def ledgerCompleteRes : DB × QuizResult :=
  (completeQuizAttempt 7 1 5000 ledgerDb).toOption.getD
    (ledgerDb, defaultResult)

/-- The (database, snapshot) pair of resuming on `leakDb1`. -/
def resumeRes : DB × CurrentQuizState :=
  (startQuizAttempt 1 1 999 leakDb1).toOption.getD (leakDb1, defaultSnap)

/-- The (database, snapshot) pair of a fresh start on `leakDb`. -/
def createRes : DB × CurrentQuizState :=
  (startQuizAttempt 1 1 0 leakDb).toOption.getD (leakDb, defaultSnap)

/-- The row update of the timeout path of `getCurrentQuizState`
(`db.update(...).set({status: TIME_OUT, completed_at: now,
time_remaining_seconds: 0}).where(id = aid)`). -/
def timedOutRow (aid : Nat) (now : Int) (a : QuizAttempt) : QuizAttempt :=
  if a.id == aid then
    { a with
        status := AttemptStatus.TIME_OUT
        completed_at := some now
        time_remaining_seconds := 0 }
  else a

/-- The row update of `completeQuizAttempt` on an IN_PROGRESS attempt
(`.set({status: COMPLETED, completed_at: now, score: k})`). -/
def completedRow (aid : Nat) (now : Int) (k : Nat) (a : QuizAttempt) : QuizAttempt :=
  if a.id == aid then
    { a with
        status := AttemptStatus.COMPLETED
        completed_at := some now
        score := k }
  else a

/-- The row update of `submitQuizAnswer` (`.set(updateValues)`): score,
pointer and time always; status and completed_at only when the attempt
finalizes. -/
def submittedRow (aid : Nat) (newScore nextIdx : Nat) (tr : Int) (fin : Bool)
    (now : Int) (a : QuizAttempt) : QuizAttempt :=
  if a.id == aid then
    { a with
        score := newScore
        current_question_index := nextIdx
        time_remaining_seconds := tr
        status :=
          if fin then
            (if tr == 0 then AttemptStatus.TIME_OUT else AttemptStatus.COMPLETED)
          else a.status
        completed_at := if fin then some now else a.completed_at }
  else a

/-- The attempt row `startQuizAttempt` inserts on the create path. -/
def newAttemptRow (db : DB) (p u : Nat) (now : Int) : QuizAttempt :=
  { id := db.nextAttemptId
    user_id := u
    quiz_package_id := p
    status := AttemptStatus.IN_PROGRESS
    score := 0
    total_questions := (db.questions.filter (fun q => q.quiz_package_id == p)).length
    current_question_index := 0
    started_at := now
    completed_at := none
    time_remaining_seconds := 7200 }

/-- The database state `completeQuizAttempt` persists on the IN_PROGRESS
path: the targeted attempt marked COMPLETED with the score recomputed
from the ledger. -/
def completedDb (db : DB) (aid : Nat) (now : Int) : DB :=
  { db with
      attempts := db.attempts.map (completedRow aid now
        ((db.answers.filter (fun a => a.attempt_id == aid)).filter
          (fun a => a.is_correct)).length) }

/-- The database state of the timeout path of `getCurrentQuizState`. -/
def timedOutDb (db : DB) (aid : Nat) (now : Int) : DB :=
  { db with attempts := db.attempts.map (timedOutRow aid now) }

/-- The database state of `startQuizAttempt`'s create path. -/
def createdDb (db : DB) (p u : Nat) (now : Int) : DB :=
  { db with
      attempts := db.attempts ++ [newAttemptRow db p u now]
      nextAttemptId := db.nextAttemptId + 1 }

/-- The snapshot `startQuizAttempt` returns for attempt `att`. -/
def startSnap (db : DB) (pid : Nat) (pkg : QuizPackage) (att : QuizAttempt) :
    CurrentQuizState :=
  { attempt_id := att.id
    quiz_package_id := att.quiz_package_id
    quiz_title := pkg.title
    current_question_index := att.current_question_index
    total_questions := att.total_questions
    time_remaining_seconds := att.time_remaining_seconds
    current_question := (db.questions.filter (fun q =>
      q.quiz_package_id == pid &&
        q.order_index == att.current_question_index)).head? }

/-- The snapshot `getCurrentQuizState` returns on the live path. -/
def liveSnap (db : DB) (att : QuizAttempt) (pkg : QuizPackage) (now : Int) :
    CurrentQuizState :=
  { attempt_id := att.id
    quiz_package_id := att.quiz_package_id
    quiz_title := pkg.title
    current_question_index := att.current_question_index
    total_questions := att.total_questions
    time_remaining_seconds :=
      max 0 (att.time_remaining_seconds - elapsedSeconds att.started_at now)
    current_question :=
      if att.current_question_index < att.total_questions then
        (db.questions.filter (fun q =>
          q.quiz_package_id == att.quiz_package_id &&
            q.order_index == att.current_question_index)).head?
      else none }

/-- The `finalize` condition of `submitQuizAnswer`: the answered question
was the last one of the (live) ordered question list, or the recomputed
remaining time is 0. -/
def submitFinalize (db : DB) (att : QuizAttempt) (now : Int) : Bool :=
  decide ((sortByOrderIndex (db.questions.filter
    (fun q => q.quiz_package_id == att.quiz_package_id))).length ≤
      att.current_question_index + 1) ||
  (max 0 (7200 - elapsedSeconds att.started_at now) == 0)

/-- The database state a successful `submitQuizAnswer` persists: one
ledger entry appended and the attempt row updated. -/
def submitDb (db : DB) (aid qid : Nat) (sel : QOption) (now : Int)
    (att : QuizAttempt) (cq : QuizQuestion) : DB :=
  { db with
      answers := db.answers ++
        [{ id := db.nextAnswerId
           attempt_id := aid
           question_id := qid
           selected_answer := sel
           is_correct := cq.correct_answer == sel
           answered_at := now }]
      nextAnswerId := db.nextAnswerId + 1
      attempts := db.attempts.map (submittedRow aid
        (att.score + (if cq.correct_answer == sel then 1 else 0))
        (att.current_question_index + 1)
        (max 0 (7200 - elapsedSeconds att.started_at now))
        (submitFinalize db att now)
        now) }

/-- The snapshot a successful `submitQuizAnswer` returns. -/
def submitSnap (db : DB) (aid : Nat) (now : Int) (att : QuizAttempt)
    (pkg : QuizPackage) : CurrentQuizState :=
  { attempt_id := aid
    quiz_package_id := att.quiz_package_id
    quiz_title := pkg.title
    current_question_index := att.current_question_index + 1
    total_questions := (sortByOrderIndex (db.questions.filter
      (fun q => q.quiz_package_id == att.quiz_package_id))).length
    time_remaining_seconds := max 0 (7200 - elapsedSeconds att.started_at now)
    current_question :=
      (if submitFinalize db att now then none
       else (sortByOrderIndex (db.questions.filter
         (fun q => q.quiz_package_id == att.quiz_package_id)))[att.current_question_index + 1]?).map
        (fun q => { q with correct_answer := QOption.A }) }

/-- Terminal attempt statuses. -/
def Terminal (s : AttemptStatus) : Prop :=
  s = AttemptStatus.COMPLETED ∨ s = AttemptStatus.TIME_OUT

instance (s : AttemptStatus) : Decidable (Terminal s) := by
  unfold Terminal; infer_instance

/-- The filter predicate of the resume query in `startQuizAttempt`. -/
def inProgressFor (u p : Nat) (a : QuizAttempt) : Bool :=
  a.user_id == u && a.quiz_package_id == p && a.status == AttemptStatus.IN_PROGRESS

/-- Structural well-formedness guaranteed by the database: `id` is a
serial primary key, so attempt ids are distinct and below the next
serial value. -/
def WellFormed (db : DB) : Prop :=
  db.attempts.Pairwise (fun x y => x.id ≠ y.id) ∧
  ∀ a ∈ db.attempts, a.id < db.nextAttemptId

/-- The no-overlap invariant: at most one IN_PROGRESS attempt per
(user, package) pair. -/
def AtMostOne (db : DB) : Prop :=
  ∀ u p, (db.attempts.filter (inProgressFor u p)).length ≤ 1

/-- `db'` is `db` with a single-row `UPDATE` applied to the attempts
table: some IN_PROGRESS attempt `att` was targeted by id, rows with other
ids are untouched, and the update preserves id, owner and package and
moves the status only to itself or to a terminal status. -/
def GoodUpdate (db db' : DB) : Prop :=
  ∃ (aid : Nat) (f : QuizAttempt → QuizAttempt) (att : QuizAttempt),
    db'.attempts = db.attempts.map f ∧
    att ∈ db.attempts ∧ att.id = aid ∧
    att.status = AttemptStatus.IN_PROGRESS ∧
    (∀ a, (a.id == aid) = false → f a = a) ∧
    (∀ a, (f a).id = a.id ∧ (f a).user_id = a.user_id ∧
      (f a).quiz_package_id = a.quiz_package_id ∧
      ((f a).status = a.status ∨ Terminal (f a).status)) ∧
    db'.nextAttemptId = db.nextAttemptId

/-- `db'` is `db` with the insert of `startQuizAttempt`'s create path:
one fresh IN_PROGRESS row appended for a (user, package) pair that had no
IN_PROGRESS attempt. -/
def AppendCreate (db db' : DB) : Prop :=
  ∃ (u p : Nat) (now : Int),
    db'.attempts = db.attempts ++ [newAttemptRow db p u now] ∧
    db'.nextAttemptId = db.nextAttemptId + 1 ∧
    db.attempts.filter (inProgressFor u p) = []

lemma head?_mem {α : Type} {l : List α} {a : α} (h : l.head? = some a) :
    a ∈ l := by
  cases l with
  | nil => simp at h
  | cons x xs =>
    simp only [List.head?, Option.some.injEq] at h
    exact List.mem_cons.mpr (Or.inl h.symm)

lemma head?_filter_pred {α : Type} {p : α → Bool} {l : List α} {a : α}
    (h : (l.filter p).head? = some a) : a ∈ l ∧ p a = true := by
  have := head?_mem h
  simpa [List.mem_filter] using this

lemma head?_eq_some_of_forall {α : Type} {l : List α} {a : α}
    (hne : l ≠ []) (hall : ∀ x ∈ l, x = a) : l.head? = some a := by
  cases l with
  | nil => exact absurd rfl hne
  | cons x xs => simp [List.head?, hall x (by simp)]

lemma eq_of_pairwise_ids {l : List QuizAttempt}
    (h : l.Pairwise (fun x y => x.id ≠ y.id)) {a b : QuizAttempt}
    (ha : a ∈ l) (hb : b ∈ l) (hid : a.id = b.id) : a = b := by
  induction l with
  | nil => simp at ha
  | cons x xs ih =>
    rcases List.pairwise_cons.mp h with ⟨hx, hxs⟩
    rcases List.mem_cons.mp ha with ha' | ha' <;>
      rcases List.mem_cons.mp hb with hb' | hb'
    · exact ha'.trans hb'.symm
    · exact absurd hid (ha' ▸ hx b hb')
    · exact absurd hid.symm (hb' ▸ hx a ha')
    · exact ih hxs ha' hb'

lemma countP_map_le {α : Type} (f : α → α) (p : α → Bool) (l : List α)
    (h : ∀ a ∈ l, p (f a) = true → p a = true) :
    (l.map f).countP p ≤ l.countP p := by
  induction l with
  | nil => simp
  | cons x xs ih =>
    simp only [List.map_cons, List.countP_cons]
    have hx : (if p (f x) = true then 1 else 0) ≤ (if p x = true then 1 else 0) := by
      by_cases hp : p (f x) = true
      · simp [hp, h x (by simp) hp]
      · simp [hp]
    have hxs : (xs.map f).countP p ≤ xs.countP p :=
      ih (fun a ha => h a (by simp [ha]))
    omega

lemma start_nopkg_red (db : DB) (pid u : Nat) (now : Int)
    (hpkg : (db.packages.filter (fun p => p.id == pid)).head? = none) :
    startQuizAttempt pid u now db =
      .error ("Quiz package with ID " ++ toString pid ++ " not found") := by
  unfold startQuizAttempt
  rw [hpkg]

lemma start_badcount_red (db : DB) (pid u : Nat) (now : Int) (pkg : QuizPackage)
    (hpkg : (db.packages.filter (fun p => p.id == pid)).head? = some pkg)
    (hcnt : (db.questions.filter (fun q => q.quiz_package_id == pid)).length ≠ 110) :
    startQuizAttempt pid u now db =
      .error (countQuestionsMsg
        (db.questions.filter (fun q => q.quiz_package_id == pid)).length) := by
  unfold startQuizAttempt
  rw [hpkg]
  dsimp only
  rw [if_pos hcnt]

lemma start_resume_red (db : DB) (pid u : Nat) (now : Int)
    (pkg : QuizPackage) (att : QuizAttempt)
    (hpkg : (db.packages.filter (fun p => p.id == pid)).head? = some pkg)
    (hcnt : (db.questions.filter (fun q => q.quiz_package_id == pid)).length = 110)
    (hex : (db.attempts.filter (fun a =>
        a.user_id == u && a.quiz_package_id == pid &&
          a.status == AttemptStatus.IN_PROGRESS)).head? = some att) :
    startQuizAttempt pid u now db = .ok (db, startSnap db pid pkg att) := by
  unfold startQuizAttempt
  rw [hpkg]
  dsimp only
  rw [if_neg (fun h => h hcnt)]
  rw [hex]
  rfl

lemma start_create_red (db : DB) (pid u : Nat) (now : Int) (pkg : QuizPackage)
    (hpkg : (db.packages.filter (fun p => p.id == pid)).head? = some pkg)
    (hcnt : (db.questions.filter (fun q => q.quiz_package_id == pid)).length = 110)
    (hex : (db.attempts.filter (fun a =>
        a.user_id == u && a.quiz_package_id == pid &&
          a.status == AttemptStatus.IN_PROGRESS)).head? = none) :
    startQuizAttempt pid u now db =
      .ok (createdDb db pid u now,
        startSnap db pid pkg (newAttemptRow db pid u now)) := by
  unfold startQuizAttempt
  rw [hpkg]
  dsimp only
  rw [if_neg (fun h => h hcnt)]
  rw [hex]
  rfl

lemma getState_noatt_red (db : DB) (aid : Nat) (now : Int)
    (hatt : (db.attempts.filter (fun a => a.id == aid)).head? = none) :
    getCurrentQuizState aid now db = (db, none) := by
  unfold getCurrentQuizState
  rw [hatt]

lemma getState_terminal_red (db : DB) (aid : Nat) (now : Int)
    (att : QuizAttempt)
    (hatt : (db.attempts.filter (fun a => a.id == aid)).head? = some att)
    (hterm : Terminal att.status) :
    getCurrentQuizState aid now db = (db, none) := by
  unfold getCurrentQuizState
  rw [hatt]
  dsimp only
  cases hpkg : (db.packages.filter (fun p => p.id == att.quiz_package_id)).head? with
  | none => rfl
  | some pkg =>
    rcases hterm with h | h <;> rw [h] <;> rfl

lemma getState_timeout_red (db : DB) (aid : Nat) (now : Int)
    (att : QuizAttempt) (pkg : QuizPackage)
    (hatt : (db.attempts.filter (fun a => a.id == aid)).head? = some att)
    (hpkg : (db.packages.filter (fun p => p.id == att.quiz_package_id)).head? = some pkg)
    (hip : att.status = AttemptStatus.IN_PROGRESS)
    (hz : max 0 (att.time_remaining_seconds - elapsedSeconds att.started_at now) = 0) :
    getCurrentQuizState aid now db = (timedOutDb db aid now, none) := by
  unfold getCurrentQuizState
  rw [hatt]
  dsimp only
  rw [hpkg]
  rw [hip]
  rw [hz]
  rfl

lemma getState_live_red (db : DB) (aid : Nat) (now : Int)
    (att : QuizAttempt) (pkg : QuizPackage)
    (hatt : (db.attempts.filter (fun a => a.id == aid)).head? = some att)
    (hpkg : (db.packages.filter (fun p => p.id == att.quiz_package_id)).head? = some pkg)
    (hip : att.status = AttemptStatus.IN_PROGRESS)
    (hnz : (max 0 (att.time_remaining_seconds - elapsedSeconds att.started_at now)
      == 0) = false) :
    getCurrentQuizState aid now db = (db, some (liveSnap db att pkg now)) := by
  unfold getCurrentQuizState
  rw [hatt]
  dsimp only
  rw [hpkg]
  rw [hip]
  rw [hnz]
  rfl

lemma submit_noatt_red (db : DB) (aid qid u : Nat) (sel : QOption) (now : Int)
    (hatt : (db.attempts.filter (fun a => a.id == aid && a.user_id == u &&
        a.status == AttemptStatus.IN_PROGRESS)).head? = none) :
    submitQuizAnswer aid qid sel u now db =
      .error "Quiz attempt not found or not accessible" := by
  unfold submitQuizAnswer
  rw [hatt]

lemma submit_mismatch_red (db : DB) (aid qid u : Nat) (sel : QOption) (now : Int)
    (att : QuizAttempt) (pkg : QuizPackage)
    (hatt : (db.attempts.filter (fun a => a.id == aid && a.user_id == u &&
        a.status == AttemptStatus.IN_PROGRESS)).head? = some att)
    (hpkg : (db.packages.filter (fun p => p.id == att.quiz_package_id)).head? = some pkg)
    (hne : (sortByOrderIndex (db.questions.filter
        (fun q => q.quiz_package_id == att.quiz_package_id))).isEmpty = false)
    (hmis : ∀ cq, (sortByOrderIndex (db.questions.filter
        (fun q => q.quiz_package_id == att.quiz_package_id)))[att.current_question_index]? =
          some cq → cq.id ≠ qid) :
    submitQuizAnswer aid qid sel u now db =
      .error "Question ID does not match current question" := by
  unfold submitQuizAnswer
  rw [hatt]
  dsimp only
  rw [hpkg]
  dsimp only
  rw [hne]
  rw [if_neg Bool.false_ne_true]
  cases hcq : (sortByOrderIndex (db.questions.filter
      (fun q => q.quiz_package_id == att.quiz_package_id)))[att.current_question_index]? with
  | none => rfl
  | some cq =>
    dsimp only
    rw [if_pos (hmis cq hcq)]

lemma submit_ok_red (db : DB) (aid qid u : Nat) (sel : QOption) (now : Int)
    (att : QuizAttempt) (pkg : QuizPackage) (cq : QuizQuestion)
    (hatt : (db.attempts.filter (fun a => a.id == aid && a.user_id == u &&
        a.status == AttemptStatus.IN_PROGRESS)).head? = some att)
    (hpkg : (db.packages.filter (fun p => p.id == att.quiz_package_id)).head? = some pkg)
    (hne : (sortByOrderIndex (db.questions.filter
        (fun q => q.quiz_package_id == att.quiz_package_id))).isEmpty = false)
    (hcq : (sortByOrderIndex (db.questions.filter
        (fun q => q.quiz_package_id == att.quiz_package_id)))[att.current_question_index]? =
          some cq)
    (hqid : cq.id = qid) :
    submitQuizAnswer aid qid sel u now db =
      .ok (submitDb db aid qid sel now att cq, submitSnap db aid now att pkg) := by
  unfold submitQuizAnswer
  rw [hatt]
  dsimp only
  rw [hpkg]
  dsimp only
  rw [hne]
  rw [if_neg Bool.false_ne_true]
  rw [hcq]
  dsimp only
  rw [if_neg (fun h => h hqid)]
  rfl

lemma complete_noatt_red (db : DB) (aid u : Nat) (now : Int)
    (hatt : (db.attempts.filter (fun a =>
      a.id == aid && a.user_id == u)).head? = none) :
    completeQuizAttempt aid u now db =
      .error ("Quiz attempt " ++ toString aid ++
        " not found or does not belong to user") := by
  unfold completeQuizAttempt
  rw [hatt]

lemma complete_terminal_red (db : DB) (aid u : Nat) (now : Int)
    (att : QuizAttempt)
    (hatt : (db.attempts.filter (fun a =>
      a.id == aid && a.user_id == u)).head? = some att)
    (hterm : Terminal att.status) :
    completeQuizAttempt aid u now db =
      (match getQuizResults db aid with
        | some r => .ok (db, r)
        | none => .error "results unavailable") := by
  unfold completeQuizAttempt
  rw [hatt]
  dsimp only
  rcases hterm with h | h <;> rw [h] <;> rfl

lemma complete_inprogress_red (db : DB) (aid u : Nat) (now : Int)
    (att : QuizAttempt)
    (hatt : (db.attempts.filter (fun a =>
      a.id == aid && a.user_id == u)).head? = some att)
    (hip : att.status = AttemptStatus.IN_PROGRESS) :
    completeQuizAttempt aid u now db =
      (match getQuizResults (completedDb db aid now) aid with
        | some r => .ok (completedDb db aid now, r)
        | none => .error "results unavailable") := by
  unfold completeQuizAttempt
  rw [hatt]
  dsimp only
  rw [hip]
  rfl

lemma getState_nopkg_red (db : DB) (aid : Nat) (now : Int) (att : QuizAttempt)
    (hatt : (db.attempts.filter (fun a => a.id == aid)).head? = some att)
    (hpkg : (db.packages.filter (fun p => p.id == att.quiz_package_id)).head? = none) :
    getCurrentQuizState aid now db = (db, none) := by
  unfold getCurrentQuizState
  rw [hatt]
  dsimp only
  rw [hpkg]

lemma submit_nopkg_red (db : DB) (aid qid u : Nat) (sel : QOption) (now : Int)
    (att : QuizAttempt)
    (hatt : (db.attempts.filter (fun a => a.id == aid && a.user_id == u &&
        a.status == AttemptStatus.IN_PROGRESS)).head? = some att)
    (hpkg : (db.packages.filter (fun p => p.id == att.quiz_package_id)).head? = none) :
    submitQuizAnswer aid qid sel u now db =
      .error "Quiz attempt not found or not accessible" := by
  unfold submitQuizAnswer
  rw [hatt]
  dsimp only
  rw [hpkg]

lemma submit_noquestions_red (db : DB) (aid qid u : Nat) (sel : QOption)
    (now : Int) (att : QuizAttempt) (pkg : QuizPackage)
    (hatt : (db.attempts.filter (fun a => a.id == aid && a.user_id == u &&
        a.status == AttemptStatus.IN_PROGRESS)).head? = some att)
    (hpkg : (db.packages.filter (fun p => p.id == att.quiz_package_id)).head? = some pkg)
    (hemp : (sortByOrderIndex (db.questions.filter
        (fun q => q.quiz_package_id == att.quiz_package_id))).isEmpty = true) :
    submitQuizAnswer aid qid sel u now db =
      .error "No questions found for this quiz" := by
  unfold submitQuizAnswer
  rw [hatt]
  dsimp only
  rw [hpkg]
  dsimp only
  rw [hemp]
  rfl

lemma applyOp_cases (db : DB) (op : Op) :
    applyOp db op = db ∨ GoodUpdate db (applyOp db op) ∨
      AppendCreate db (applyOp db op) := by
  cases op with
  | start p u now =>
    cases hpkg : (db.packages.filter (fun q => q.id == p)).head? with
    | none => left; simp [applyOp, start_nopkg_red db p u now hpkg]
    | some pkg =>
      by_cases hcnt : (db.questions.filter (fun q => q.quiz_package_id == p)).length = 110
      · cases hex : (db.attempts.filter (fun a =>
            a.user_id == u && a.quiz_package_id == p &&
              a.status == AttemptStatus.IN_PROGRESS)).head? with
        | some a0 =>
          left; simp [applyOp, start_resume_red db p u now pkg a0 hpkg hcnt hex]
        | none =>
          right; right
          have hred := start_create_red db p u now pkg hpkg hcnt hex
          refine ⟨u, p, now, ?_, ?_, List.head?_eq_none_iff.mp hex⟩
          · simp [applyOp, hred, createdDb]
          · simp [applyOp, hred, createdDb]
      · left; simp [applyOp, start_badcount_red db p u now pkg hpkg hcnt]
  | getState aid now =>
    cases hatt : (db.attempts.filter (fun a => a.id == aid)).head? with
    | none => left; simp [applyOp, getState_noatt_red db aid now hatt]
    | some att =>
      cases hpkg : (db.packages.filter (fun q => q.id == att.quiz_package_id)).head? with
      | none => left; simp [applyOp, getState_nopkg_red db aid now att hatt hpkg]
      | some pkg =>
        cases hst : att.status with
        | COMPLETED =>
          left; simp [applyOp, getState_terminal_red db aid now att hatt (Or.inl hst)]
        | TIME_OUT =>
          left; simp [applyOp, getState_terminal_red db aid now att hatt (Or.inr hst)]
        | IN_PROGRESS =>
          by_cases hz : max 0 (att.time_remaining_seconds -
              elapsedSeconds att.started_at now) = 0
          · right; left
            have hred := getState_timeout_red db aid now att pkg hatt hpkg hst hz
            obtain ⟨hmem, hpred⟩ := head?_filter_pred hatt
            refine ⟨aid, timedOutRow aid now, att, ?_, hmem,
              by simpa using hpred, hst, ?_, ?_, ?_⟩
            · simp [applyOp, hred, timedOutDb]
            · intro a ha; simp [timedOutRow, ha]
            · intro a
              by_cases ha : (a.id == aid) = true <;>
                simp [timedOutRow, ha, Terminal]
            · simp [applyOp, hred, timedOutDb]
          · left
            have hnz : (max 0 (att.time_remaining_seconds -
                elapsedSeconds att.started_at now) == 0) = false :=
              beq_eq_false_iff_ne.mpr hz
            simp [applyOp, getState_live_red db aid now att pkg hatt hpkg hst hnz]
  | submit aid qid sel u now =>
    cases hatt : (db.attempts.filter (fun a => a.id == aid && a.user_id == u &&
        a.status == AttemptStatus.IN_PROGRESS)).head? with
    | none => left; simp [applyOp, submit_noatt_red db aid qid u sel now hatt]
    | some att =>
      cases hpkg : (db.packages.filter (fun q => q.id == att.quiz_package_id)).head? with
      | none => left; simp [applyOp, submit_nopkg_red db aid qid u sel now att hatt hpkg]
      | some pkg =>
        by_cases hemp : (sortByOrderIndex (db.questions.filter
            (fun q => q.quiz_package_id == att.quiz_package_id))).isEmpty = true
        · left
          simp [applyOp, submit_noquestions_red db aid qid u sel now att pkg hatt hpkg hemp]
        · have hne : (sortByOrderIndex (db.questions.filter
              (fun q => q.quiz_package_id == att.quiz_package_id))).isEmpty = false := by
            simpa using hemp
          cases hcq : (sortByOrderIndex (db.questions.filter
              (fun q => q.quiz_package_id == att.quiz_package_id)))[att.current_question_index]? with
          | none =>
            left
            have hmis : ∀ c, (sortByOrderIndex (db.questions.filter
                (fun q => q.quiz_package_id == att.quiz_package_id)))[att.current_question_index]? =
                  some c → c.id ≠ qid := by
              intro c hc; rw [hcq] at hc; cases hc
            simp [applyOp,
              submit_mismatch_red db aid qid u sel now att pkg hatt hpkg hne hmis]
          | some cq =>
            by_cases hqid : cq.id = qid
            · right; left
              have hred := submit_ok_red db aid qid u sel now att pkg cq hatt hpkg hne hcq hqid
              obtain ⟨hmem, hpred⟩ := head?_filter_pred hatt
              simp only [Bool.and_eq_true, beq_iff_eq] at hpred
              refine ⟨aid, submittedRow aid
                  (att.score + (if cq.correct_answer == sel then 1 else 0))
                  (att.current_question_index + 1)
                  (max 0 (7200 - elapsedSeconds att.started_at now))
                  (submitFinalize db att now) now,
                att, ?_, hmem, hpred.1.1, hpred.2, ?_, ?_, ?_⟩
              · simp [applyOp, hred, submitDb]
              · intro a ha; simp [submittedRow, ha]
              · intro a
                by_cases ha : (a.id == aid) = true
                · refine ⟨by simp [submittedRow, ha], by simp [submittedRow, ha],
                    by simp [submittedRow, ha], ?_⟩
                  by_cases hf : submitFinalize db att now = true
                  · right
                    by_cases hz : (max 0 (7200 - elapsedSeconds att.started_at now)
                        == 0) = true <;>
                      simp [submittedRow, ha, hf, hz, Terminal]
                  · left
                    have hf' : submitFinalize db att now = false := by simpa using hf
                    simp [submittedRow, ha, hf']
                · simp [submittedRow, ha]
              · simp [applyOp, hred, submitDb]
            · left
              have hmis : ∀ c, (sortByOrderIndex (db.questions.filter
                  (fun q => q.quiz_package_id == att.quiz_package_id)))[att.current_question_index]? =
                    some c → c.id ≠ qid := by
                intro c hc
                rw [hcq] at hc
                cases hc
                exact hqid
              simp [applyOp,
                submit_mismatch_red db aid qid u sel now att pkg hatt hpkg hne hmis]
  | complete aid u now =>
    cases hatt : (db.attempts.filter (fun a =>
        a.id == aid && a.user_id == u)).head? with
    | none => left; simp [applyOp, complete_noatt_red db aid u now hatt]
    | some att =>
      cases hst : att.status with
      | IN_PROGRESS =>
        have hred := complete_inprogress_red db aid u now att hatt hst
        cases hres : getQuizResults (completedDb db aid now) aid with
        | none =>
          left
          rw [hres] at hred
          simp [applyOp, hred]
        | some r =>
          right; left
          rw [hres] at hred
          obtain ⟨hmem, hpred⟩ := head?_filter_pred hatt
          simp only [Bool.and_eq_true, beq_iff_eq] at hpred
          refine ⟨aid, completedRow aid now
              ((db.answers.filter (fun a => a.attempt_id == aid)).filter
                (fun a => a.is_correct)).length, att, ?_, hmem, hpred.1, hst, ?_, ?_, ?_⟩
          · simp [applyOp, hred, completedDb]
          · intro a ha; simp [completedRow, ha]
          · intro a
            by_cases ha : (a.id == aid) = true <;> simp [completedRow, ha, Terminal]
          · simp [applyOp, hred, completedDb]
      | COMPLETED =>
        left
        have hred := complete_terminal_red db aid u now att hatt (Or.inl hst)
        cases hres : getQuizResults db aid with
        | none => rw [hres] at hred; simp [applyOp, hred]
        | some r => rw [hres] at hred; simp [applyOp, hred]
      | TIME_OUT =>
        left
        have hred := complete_terminal_red db aid u now att hatt (Or.inr hst)
        cases hres : getQuizResults db aid with
        | none => rw [hres] at hred; simp [applyOp, hred]
        | some r => rw [hres] at hred; simp [applyOp, hred]

lemma mem_of_getElem?_eq {α : Type} {l : List α} {i : Nat} {a : α}
    (h : l[i]? = some a) : a ∈ l := by
  induction l generalizing i with
  | nil => simp at h
  | cons x xs ih =>
    cases i with
    | zero => simp_all
    | succ n =>
      simp only [List.getElem?_cons_succ] at h
      exact List.mem_cons_of_mem _ (ih h)

lemma lt_length_of_getElem?_eq {α : Type} {l : List α} {i : Nat} {a : α}
    (h : l[i]? = some a) : i < l.length := by
  induction l generalizing i with
  | nil => simp at h
  | cons x xs ih =>
    cases i with
    | zero => simp
    | succ n =>
      simp only [List.getElem?_cons_succ] at h
      simpa using ih h

lemma getElem?_append_left_eq {α : Type} {l1 l2 : List α} {i : Nat}
    (h : i < l1.length) : (l1 ++ l2)[i]? = l1[i]? := by
  induction l1 generalizing i with
  | nil => simp at h
  | cons x xs ih =>
    cases i with
    | zero => simp
    | succ n =>
      simp only [List.cons_append, List.getElem?_cons_succ]
      exact ih (by simpa using h)

lemma wellFormed_goodUpdate {db db' : DB} (hwf : WellFormed db)
    (hgu : GoodUpdate db db') : WellFormed db' := by
  obtain ⟨aid, f, att, hmap, hmem, hid, hip, hfix, hprops, hnid⟩ := hgu
  obtain ⟨hpw, hbound⟩ := hwf
  constructor
  · rw [hmap]
    rw [List.pairwise_map]
    refine hpw.imp_of_mem ?_
    intro a b _ _ hne
    rw [(hprops a).1, (hprops b).1]
    exact hne
  · intro a ha
    rw [hmap] at ha
    obtain ⟨a0, ha0, rfl⟩ := List.mem_map.mp ha
    rw [hnid, (hprops a0).1]
    exact hbound a0 ha0

lemma wellFormed_appendCreate {db db' : DB} (hwf : WellFormed db)
    (hac : AppendCreate db db') : WellFormed db' := by
  obtain ⟨u, p, now, hmap, hnid, _⟩ := hac
  obtain ⟨hpw, hbound⟩ := hwf
  constructor
  · rw [hmap]
    rw [List.pairwise_append]
    refine ⟨hpw, List.pairwise_singleton _ _, ?_⟩
    intro a ha b hb
    simp only [List.mem_singleton] at hb
    subst hb
    have := hbound a ha
    simp only [newAttemptRow]
    omega
  · intro a ha
    rw [hmap] at ha
    rw [hnid]
    rcases List.mem_append.mp ha with h | h
    · have := hbound a h; omega
    · simp only [List.mem_singleton] at h
      subst h
      simp only [newAttemptRow]
      omega

lemma wellFormed_applyOp (db : DB) (op : Op) (hwf : WellFormed db) :
    WellFormed (applyOp db op) := by
  rcases applyOp_cases db op with heq | hgu | hac
  · rw [heq]; exact hwf
  · exact wellFormed_goodUpdate hwf hgu
  · exact wellFormed_appendCreate hwf hac

lemma atMostOne_applyOp (db : DB) (op : Op) (hamo : AtMostOne db) :
    AtMostOne (applyOp db op) := by
  rcases applyOp_cases db op with heq | hgu | hac
  · rw [heq]; exact hamo
  · obtain ⟨aid, f, att, hmap, hmem, hid, hip, hfix, hprops, hnid⟩ := hgu
    intro u p
    rw [hmap]
    rw [← List.countP_eq_length_filter]
    refine le_trans (countP_map_le f (inProgressFor u p) db.attempts ?_) ?_
    · intro a _ hfa
      unfold inProgressFor at hfa ⊢
      obtain ⟨hid', huser, hpkg, hst⟩ := hprops a
      rcases hst with hs | hterm
      · rw [huser, hpkg, hs] at hfa
        exact hfa
      · exfalso
        simp only [Bool.and_eq_true, beq_iff_eq] at hfa
        rcases hterm with h | h <;> rw [h] at hfa <;> exact absurd hfa.2 (by simp)
    · rw [List.countP_eq_length_filter]
      exact hamo u p
  · obtain ⟨u0, p0, now0, hmap, hnid, hempty⟩ := hac
    intro u p
    rw [hmap, List.filter_append, List.length_append]
    by_cases hup : u0 = u ∧ p0 = p
    · obtain ⟨rfl, rfl⟩ := hup
      rw [hempty]
      simp only [List.length_nil, Nat.zero_add]
      exact le_trans (List.length_filter_le _ _) (by simp)
    · have hnew : ([newAttemptRow db p0 u0 now0].filter (inProgressFor u p)) = [] := by
        simp only [List.filter_eq_nil_iff]
        intro a ha
        simp only [List.mem_singleton] at ha
        subst ha
        simp only [inProgressFor, newAttemptRow, Bool.and_eq_true, beq_iff_eq]
        intro hcon
        exact hup ⟨hcon.1.1, hcon.1.2⟩
      rw [hnew]
      simpa using hamo u p

lemma attempts_pointwise (db : DB) (op : Op) (i : Nat) (a : QuizAttempt)
    (hwf : WellFormed db) (ha : db.attempts[i]? = some a) :
    ∃ b, (applyOp db op).attempts[i]? = some b ∧
      (Terminal a.status → b = a) ∧
      (b.status ≠ a.status → a.status = AttemptStatus.IN_PROGRESS ∧
        Terminal b.status) := by
  rcases applyOp_cases db op with heq | hgu | hac
  · exact ⟨a, by rw [heq]; exact ha, fun _ => rfl, fun hne => absurd rfl hne⟩
  · obtain ⟨aid, f, att, hmap, hmem, hid, hip, hfix, hprops, hnid⟩ := hgu
    refine ⟨f a, ?_, ?_, ?_⟩
    · rw [hmap, List.getElem?_map, ha]; rfl
    · intro hterm
      by_cases hida : (a.id == aid) = true
      · exfalso
        have hamem : a ∈ db.attempts := mem_of_getElem?_eq ha
        have : a = att := eq_of_pairwise_ids hwf.1 hamem hmem
          (by rw [beq_iff_eq] at hida; rw [hida, hid])
        rw [this, hip] at hterm
        rcases hterm with h | h <;> exact AttemptStatus.noConfusion h
      · rw [hfix a (by simpa using hida)]
    · intro hne
      by_cases hida : (a.id == aid) = true
      · have hamem : a ∈ db.attempts := mem_of_getElem?_eq ha
        have heqa : a = att := eq_of_pairwise_ids hwf.1 hamem hmem
          (by rw [beq_iff_eq] at hida; rw [hida, hid])
        refine ⟨by rw [heqa, hip], ?_⟩
        rcases (hprops a).2.2.2 with hs | hterm
        · exact absurd hs hne
        · exact hterm
      · rw [hfix a (by simpa using hida)] at hne
        exact absurd rfl hne
  · obtain ⟨u0, p0, now0, hmap, hnid, hempty⟩ := hac
    refine ⟨a, ?_, fun _ => rfl, fun hne => absurd rfl hne⟩
    rw [hmap, getElem?_append_left_eq (lt_length_of_getElem?_eq ha)]
    exact ha

lemma terminal_frame_foldl (db : DB) (ops : List Op) (i : Nat) (a : QuizAttempt)
    (hwf : WellFormed db) (ha : db.attempts[i]? = some a)
    (hterm : Terminal a.status) :
    (ops.foldl applyOp db).attempts[i]? = some a := by
  induction ops generalizing db with
  | nil => exact ha
  | cons op rest ih =>
    simp only [List.foldl_cons]
    obtain ⟨b, hb, hba, _⟩ := attempts_pointwise db op i a hwf ha
    rw [hba hterm] at hb
    exact ih (applyOp db op) (wellFormed_applyOp db op hwf) hb

lemma filter_id_head_of_mem {l : List QuizAttempt} {att : QuizAttempt} {aid : Nat}
    (hpw : l.Pairwise (fun x y => x.id ≠ y.id)) (hmem : att ∈ l)
    (hid : att.id = aid) :
    (l.filter (fun a => a.id == aid)).head? = some att := by
  apply head?_eq_some_of_forall
  · exact List.ne_nil_of_mem (List.mem_filter.mpr ⟨hmem, by simp [hid]⟩)
  · intro x hx
    obtain ⟨hxl, hxp⟩ := List.mem_filter.mp hx
    exact eq_of_pairwise_ids hpw hxl hmem
      (by rw [beq_iff_eq] at hxp; rw [hxp, hid])

lemma completed_filter_head {db : DB} {att : QuizAttempt} {aid : Nat}
    (now : Int) (K : Nat)
    (hpw : db.attempts.Pairwise (fun x y => x.id ≠ y.id))
    (hmem : att ∈ db.attempts) (hid : att.id = aid) :
    ((db.attempts.map (completedRow aid now K)).filter
      (fun a => a.id == aid)).head? = some (completedRow aid now K att) := by
  have hcongr : (db.attempts.map (completedRow aid now K)).filter
      (fun a => a.id == aid) =
      (db.attempts.filter (fun a => a.id == aid)).map (completedRow aid now K) := by
    rw [List.filter_map]
    congr 1
    apply List.filter_congr
    intro a _
    by_cases ha : (a.id == aid) = true <;> simp [Function.comp, completedRow, ha]
  rw [hcongr, List.head?_map, filter_id_head_of_mem hpw hmem hid]
  rfl

/-- C9: on an IN_PROGRESS attempt owned by the caller,
`completeQuizAttempt` persists status = COMPLETED, stamps completed_at,
persists a score recomputed as the number of is_correct ledger entries
for the attempt — regardless of the stored running counter — and returns
a result carrying that recomputed score. -/
theorem completeQuizAttempt_recomputes_score (db : DB) (aid u : Nat) (now : Int) (att : QuizAttempt)
    (hpw : db.attempts.Pairwise (fun x y => x.id ≠ y.id))
    (hatt : (db.attempts.filter (fun a =>
      a.id == aid && a.user_id == u)).head? = some att)
    (hip : att.status = AttemptStatus.IN_PROGRESS) :
    ∃ r, completeQuizAttempt aid u now db = .ok (completedDb db aid now, r) ∧
      r.score = ((db.answers.filter (fun a => a.attempt_id == aid)).filter
        (fun a => a.is_correct)).length ∧
      r.completed_at = some now ∧
      (∀ (i : Nat) (a : QuizAttempt), db.attempts[i]? = some a →
        (completedDb db aid now).attempts[i]? = some (completedRow aid now
          ((db.answers.filter (fun a => a.attempt_id == aid)).filter
            (fun a => a.is_correct)).length a)) := by
  obtain ⟨hmem, hpred⟩ := head?_filter_pred hatt
  simp only [Bool.and_eq_true, beq_iff_eq] at hpred
  have hred := complete_inprogress_red db aid u now att hatt hip
  have hhead := completed_filter_head now
    ((db.answers.filter (fun a => a.attempt_id == aid)).filter
      (fun a => a.is_correct)).length hpw hmem hpred.1
  have hgr : ∃ r, getQuizResults (completedDb db aid now) aid = some r ∧
      r.score = (completedRow aid now
        ((db.answers.filter (fun a => a.attempt_id == aid)).filter
          (fun a => a.is_correct)).length att).score ∧
      r.completed_at = (completedRow aid now
        ((db.answers.filter (fun a => a.attempt_id == aid)).filter
          (fun a => a.is_correct)).length att).completed_at := by
    unfold getQuizResults
    rw [show (completedDb db aid now).attempts = db.attempts.map (completedRow aid now
      ((db.answers.filter (fun a => a.attempt_id == aid)).filter
        (fun a => a.is_correct)).length) from rfl]
    rw [hhead]
    exact ⟨_, rfl, rfl, rfl⟩
  obtain ⟨r, hr, hsc, hca⟩ := hgr
  rw [hr] at hred
  refine ⟨r, hred, ?_, ?_, ?_⟩
  · rw [hsc]
    simp [completedRow, hpred.1]
  · rw [hca]
    simp [completedRow, hpred.1]
  · intro i a ha
    simp only [completedDb]
    rw [List.getElem?_map, ha]
    rfl

theorem completeQuizAttempt_recomputes_score_witness :
    (completeQuizAttempt 7 1 5000 ledgerDb).toOption.map
      (fun p => (p.2.score, p.2.completed_at)) = some (2, some 5000) := by
  obtain ⟨r, hok, hsc, hca, _⟩ := completeQuizAttempt_recomputes_score ledgerDb 7 1 5000
    { smallAtt with score := 42, current_question_index := 3 }
    (List.pairwise_singleton _ _) rfl rfl
  rw [hok]
  simp only [Except.toOption, Option.map]
  rw [hsc, hca]
  rfl

lemma submit_ok_inv (db : DB) (aid qid u : Nat) (sel : QOption) (now : Int)
    (att : QuizAttempt) (db' : DB) (snap : CurrentQuizState)
    (hatt : (db.attempts.filter (fun a => a.id == aid && a.user_id == u &&
        a.status == AttemptStatus.IN_PROGRESS)).head? = some att)
    (h : submitQuizAnswer aid qid sel u now db = .ok (db', snap)) :
    ∃ pkg cq,
      (db.packages.filter (fun p => p.id == att.quiz_package_id)).head? = some pkg ∧
      (sortByOrderIndex (db.questions.filter
        (fun q => q.quiz_package_id == att.quiz_package_id)))[att.current_question_index]? =
          some cq ∧
      cq.id = qid ∧
      db' = submitDb db aid qid sel now att cq ∧
      snap = submitSnap db aid now att pkg := by
  cases hpkg : (db.packages.filter (fun p => p.id == att.quiz_package_id)).head? with
  | none =>
    rw [submit_nopkg_red db aid qid u sel now att hatt hpkg] at h
    exact Except.noConfusion h
  | some pkg =>
    by_cases hemp : (sortByOrderIndex (db.questions.filter
        (fun q => q.quiz_package_id == att.quiz_package_id))).isEmpty = true
    · rw [submit_noquestions_red db aid qid u sel now att pkg hatt hpkg hemp] at h
      exact Except.noConfusion h
    · have hne : (sortByOrderIndex (db.questions.filter
          (fun q => q.quiz_package_id == att.quiz_package_id))).isEmpty = false := by
        simpa using hemp
      cases hcq : (sortByOrderIndex (db.questions.filter
          (fun q => q.quiz_package_id == att.quiz_package_id)))[att.current_question_index]? with
      | none =>
        rw [submit_mismatch_red db aid qid u sel now att pkg hatt hpkg hne
          (fun c hc => by rw [hcq] at hc; cases hc)] at h
        exact Except.noConfusion h
      | some cq =>
        by_cases hqid : cq.id = qid
        · rw [submit_ok_red db aid qid u sel now att pkg cq hatt hpkg hne hcq hqid] at h
          rw [Except.ok.injEq, Prod.mk.injEq] at h
          exact ⟨pkg, cq, rfl, rfl, hqid, h.1.symm, h.2.symm⟩
        · rw [submit_mismatch_red db aid qid u sel now att pkg hatt hpkg hne
            (fun c hc => by rw [hcq] at hc; cases hc; exact hqid)] at h
          exact Except.noConfusion h

/-- C2 (amended): `submitQuizAnswer` derives the persisted and returned
time from `started_at` against the fixed 7200-second budget, while
`getCurrentQuizState` computes `max 0 (stored − elapsed-since-start)`,
which agrees with the claimed budget formula only while the stored value
is still 7200. -/
theorem time_remaining_formulas :
    (∀ (db : DB) (aid qid u : Nat) (sel : QOption) (now : Int)
       (att : QuizAttempt) (db' : DB) (snap : CurrentQuizState),
      (db.attempts.filter (fun a => a.id == aid && a.user_id == u &&
        a.status == AttemptStatus.IN_PROGRESS)).head? = some att →
      submitQuizAnswer aid qid sel u now db = .ok (db', snap) →
      snap.time_remaining_seconds = max 0 (7200 - elapsedSeconds att.started_at now) ∧
      (∀ (i : Nat) (a : QuizAttempt), db.attempts[i]? = some a →
        (a.id == aid) = true →
        (db'.attempts[i]?.map (fun b => b.time_remaining_seconds)) =
          some (max 0 (7200 - elapsedSeconds att.started_at now)))) ∧
    (∀ (db : DB) (aid : Nat) (now : Int) (att : QuizAttempt)
       (pkg : QuizPackage) (snap : CurrentQuizState),
      (db.attempts.filter (fun a => a.id == aid)).head? = some att →
      (db.packages.filter (fun p => p.id == att.quiz_package_id)).head? = some pkg →
      att.status = AttemptStatus.IN_PROGRESS →
      (getCurrentQuizState aid now db).2 = some snap →
      snap.time_remaining_seconds =
        max 0 (att.time_remaining_seconds - elapsedSeconds att.started_at now)) := by
  constructor
  · intro db aid qid u sel now att db' snap hatt h
    obtain ⟨pkg, cq, hpkg, hcq, hqid, hdb, hsnap⟩ :=
      submit_ok_inv db aid qid u sel now att db' snap hatt h
    constructor
    · rw [hsnap]; rfl
    · intro i a ha hida
      rw [hdb]
      simp only [submitDb]
      rw [List.getElem?_map, ha]
      simp [submittedRow, hida]
  · intro db aid now att pkg snap hatt hpkg hip h
    by_cases hz : max 0 (att.time_remaining_seconds -
        elapsedSeconds att.started_at now) = 0
    · rw [getState_timeout_red db aid now att pkg hatt hpkg hip hz] at h
      exact Option.noConfusion h
    · rw [getState_live_red db aid now att pkg hatt hpkg hip
        (beq_eq_false_iff_ne.mpr hz)] at h
      rw [Option.some.injEq] at h
      rw [← h]
      rfl

theorem time_remaining_formulas_witness :
    (smallSubmitRes.2.time_remaining_seconds =
      max 0 (7200 - elapsedSeconds smallAtt.started_at 1000)) ∧
    ((smallSubmitRes.1.attempts[0]?.map (fun b => b.time_remaining_seconds)) =
      some (max 0 (7200 - elapsedSeconds smallAtt.started_at 1000))) ∧
    (smallGetSnap.time_remaining_seconds =
      max 0 (smallAtt.time_remaining_seconds -
        elapsedSeconds smallAtt.started_at 1000)) := by
  have h1 := (time_remaining_formulas.1 smallDb 7 100 1 QOption.B 1000 smallAtt
    smallSubmitRes.1 smallSubmitRes.2 rfl rfl)
  have h2 := time_remaining_formulas.2 smallDb 7 1000 smallAtt
    { id := 1, title := "t", created_by := 2 } smallGetSnap rfl rfl rfl rfl
  exact ⟨h1.1, h1.2 0 smallAtt rfl rfl, h2⟩

/-- C2 counterexample: after a successful submission at t = 100 s, a
`getCurrentQuizState` read at t = 200 s returns 6900 remaining seconds,
while the claimed formula max(0, 7200 − elapsed-since-start) gives
7000 — the stored value is compounded with the full elapsed time. -/
theorem getCurrentQuizState_time_compounds_cex :
    ((startQuizAttempt 1 1 0 leakDb).toOption.bind (fun p =>
      (submitQuizAnswer 5 100 QOption.B 1 100000 p.1).toOption.bind (fun p2 =>
        (getCurrentQuizState 5 200000 p2.1).2.map (fun s => s.time_remaining_seconds))))
      = some 6900 ∧
    max 0 (7200 - elapsedSeconds 0 200000) = 7000 ∧ (6900 : Int) ≠ 7000 :=
  ⟨rfl, rfl, by decide⟩

/-- C4 (amended): a successful `submitQuizAnswer` appends exactly one
ledger entry, advances the pointer by exactly one, scores +1 exactly when
the selected answer equals the current question's key, recomputes the
remaining time from `started_at`, and finalizes — TIME_OUT when the
remaining time is 0, COMPLETED otherwise — when the new index reaches the
package's CURRENT question count (`questions.length`), not the attempt's
`total_questions` snapshot; the returned snapshot's `current_question` is
null when the attempt finalizes. -/
theorem submitQuizAnswer_step_spec (db : DB) (aid qid u : Nat) (sel : QOption)
    (now : Int) (att : QuizAttempt) (pkg : QuizPackage) (cq : QuizQuestion)
    (hatt : (db.attempts.filter (fun a => a.id == aid && a.user_id == u &&
        a.status == AttemptStatus.IN_PROGRESS)).head? = some att)
    (hpkg : (db.packages.filter (fun p => p.id == att.quiz_package_id)).head? = some pkg)
    (hcq : (sortByOrderIndex (db.questions.filter
        (fun q => q.quiz_package_id == att.quiz_package_id)))[att.current_question_index]? =
          some cq)
    (hqid : cq.id = qid) :
    submitQuizAnswer aid qid sel u now db =
      .ok (submitDb db aid qid sel now att cq, submitSnap db aid now att pkg) ∧
    (submitDb db aid qid sel now att cq).answers = db.answers ++
      [{ id := db.nextAnswerId, attempt_id := aid, question_id := qid,
         selected_answer := sel, is_correct := cq.correct_answer == sel,
         answered_at := now }] ∧
    ((cq.correct_answer == sel) = true ↔ sel = cq.correct_answer) ∧
    (∀ (i : Nat) (a : QuizAttempt), db.attempts[i]? = some a →
      (submitDb db aid qid sel now att cq).attempts[i]? = some (submittedRow aid
        (att.score + (if cq.correct_answer == sel then 1 else 0))
        (att.current_question_index + 1)
        (max 0 (7200 - elapsedSeconds att.started_at now))
        (submitFinalize db att now) now a)) ∧
    (∀ a : QuizAttempt, (a.id == aid) = true →
      (submittedRow aid
        (att.score + (if cq.correct_answer == sel then 1 else 0))
        (att.current_question_index + 1)
        (max 0 (7200 - elapsedSeconds att.started_at now))
        (submitFinalize db att now) now a).current_question_index =
          att.current_question_index + 1 ∧
      (submittedRow aid
        (att.score + (if cq.correct_answer == sel then 1 else 0))
        (att.current_question_index + 1)
        (max 0 (7200 - elapsedSeconds att.started_at now))
        (submitFinalize db att now) now a).score =
          att.score + (if sel = cq.correct_answer then 1 else 0) ∧
      (submittedRow aid
        (att.score + (if cq.correct_answer == sel then 1 else 0))
        (att.current_question_index + 1)
        (max 0 (7200 - elapsedSeconds att.started_at now))
        (submitFinalize db att now) now a).status =
          (if submitFinalize db att now then
            (if max 0 (7200 - elapsedSeconds att.started_at now) = 0 then
              AttemptStatus.TIME_OUT
            else AttemptStatus.COMPLETED)
          else a.status) ∧
      (submitFinalize db att now = true →
        (submittedRow aid
          (att.score + (if cq.correct_answer == sel then 1 else 0))
          (att.current_question_index + 1)
          (max 0 (7200 - elapsedSeconds att.started_at now))
          (submitFinalize db att now) now a).completed_at = some now)) ∧
    (submitFinalize db att now = true ↔
      ((sortByOrderIndex (db.questions.filter
        (fun q => q.quiz_package_id == att.quiz_package_id))).length ≤
          att.current_question_index + 1 ∨
        max 0 (7200 - elapsedSeconds att.started_at now) = 0)) ∧
    (submitFinalize db att now = true →
      (submitSnap db aid now att pkg).current_question = none) ∧
    (submitSnap db aid now att pkg).current_question_index =
      att.current_question_index + 1 := by
  have hne : (sortByOrderIndex (db.questions.filter
      (fun q => q.quiz_package_id == att.quiz_package_id))).isEmpty = false := by
    cases hl : sortByOrderIndex (db.questions.filter
        (fun q => q.quiz_package_id == att.quiz_package_id)) with
    | nil => rw [hl] at hcq; simp at hcq
    | cons x xs => simp [List.isEmpty]
  refine ⟨submit_ok_red db aid qid u sel now att pkg cq hatt hpkg hne hcq hqid,
    rfl, ?_, ?_, ?_, ?_, ?_, rfl⟩
  · rw [beq_iff_eq]
    exact eq_comm
  · intro i a ha
    simp only [submitDb]
    rw [List.getElem?_map, ha]
    rfl
  · intro a hida
    refine ⟨by simp [submittedRow, hida], ?_, ?_, ?_⟩
    · by_cases hc : sel = cq.correct_answer
      · have hc' : (cq.correct_answer == sel) = true := by
          rw [beq_iff_eq]; exact hc.symm
        simp [submittedRow, hida, hc, hc']
      · have hc' : (cq.correct_answer == sel) = false := by
          rw [beq_eq_false_iff_ne]; exact fun h => hc h.symm
        simp [submittedRow, hida, hc, hc']
    · by_cases hf : submitFinalize db att now = true
      · by_cases hz : max 0 (7200 - elapsedSeconds att.started_at now) = 0 <;>
          simp [submittedRow, hida, hf, hz]
      · have hf' : submitFinalize db att now = false := by simpa using hf
        simp [submittedRow, hida, hf']
    · intro hf
      simp [submittedRow, hida, hf]
  · unfold submitFinalize
    simp [Bool.or_eq_true, decide_eq_true_iff, beq_iff_eq]
  · intro hf
    simp [submitSnap, hf]

theorem submitQuizAnswer_step_spec_witness :
    submitQuizAnswer 7 100 QOption.B 1 1000 smallDb =
      .ok (submitDb smallDb 7 100 QOption.B 1000 smallAtt (mkQuestion 0),
        submitSnap smallDb 7 1000 smallAtt { id := 1, title := "t", created_by := 2 }) ∧
    (submitDb smallDb 7 100 QOption.B 1000 smallAtt (mkQuestion 0)).answers =
      smallDb.answers ++
        [{ id := 1, attempt_id := 7, question_id := 100,
           selected_answer := QOption.B, is_correct := true, answered_at := 1000 }] ∧
    (submitSnap smallDb 7 1000 smallAtt
      { id := 1, title := "t", created_by := 2 }).current_question_index = 1 := by
  have h := submitQuizAnswer_step_spec smallDb 7 100 1 QOption.B 1000 smallAtt
    { id := 1, title := "t", created_by := 2 } (mkQuestion 0) rfl rfl rfl rfl
  exact ⟨h.1, h.2.1, h.2.2.2.2.2.2.2⟩

/-- C4 counterexample: on an IN_PROGRESS attempt whose `total_questions`
snapshot is 110 but whose package now holds a single question, a
successful submission at index 0 is finalized as COMPLETED even though
the new index 1 is far below `total_questions` = 110 and ample time
remains — the code gates on the live question count, not the snapshot. -/
theorem submitQuizAnswer_live_count_cex :
    ((submitQuizAnswer 7 100 QOption.B 1 1000 staleCountDb).toOption.map (fun p =>
       (p.1.attempts.map (fun a => (a.status, a.current_question_index)),
        p.2.current_question)))
      = some ([(AttemptStatus.COMPLETED, 1)], none) ∧
    (staleCountDb.attempts.map (fun a => a.total_questions)) = [110] ∧
    (0 + 1 : Nat) < 110 ∧
    max 0 (7200 - elapsedSeconds 0 1000) ≠ 0 :=
  ⟨rfl, rfl, by decide, by decide⟩

/-- C10: in the snapshot returned by a successful `submitQuizAnswer`, a
non-null `current_question` always carries `correct_answer = A`: the key
is overwritten with the constant A rather than removed, so it equals the
next question's true key exactly when that key is A. -/
theorem submitQuizAnswer_masks_next_answer_key (db : DB) (aid qid u : Nat)
    (sel : QOption) (now : Int) (att : QuizAttempt) (db' : DB)
    (snap : CurrentQuizState)
    (hatt : (db.attempts.filter (fun a => a.id == aid && a.user_id == u &&
        a.status == AttemptStatus.IN_PROGRESS)).head? = some att)
    (h : submitQuizAnswer aid qid sel u now db = .ok (db', snap)) :
    (∀ q : QuizQuestion, snap.current_question = some q →
      q.correct_answer = QOption.A) ∧
    (∀ nq : QuizQuestion,
      submitFinalize db att now = false →
      (sortByOrderIndex (db.questions.filter
        (fun q => q.quiz_package_id == att.quiz_package_id)))[att.current_question_index + 1]? =
          some nq →
      snap.current_question = some { nq with correct_answer := QOption.A } ∧
      ((QOption.A = nq.correct_answer) ↔ nq.correct_answer = QOption.A)) := by
  obtain ⟨pkg, cq, hpkg, hcq, hqid, hdb, hsnap⟩ :=
    submit_ok_inv db aid qid u sel now att db' snap hatt h
  constructor
  · intro q hq
    rw [hsnap] at hq
    simp only [submitSnap] at hq
    rcases Option.map_eq_some'.mp hq with ⟨nq, _, hmask⟩
    rw [← hmask]
  · intro nq hf hnq
    rw [hsnap]
    simp only [submitSnap, hf]
    rw [hnq]
    exact ⟨rfl, eq_comm⟩

theorem submitQuizAnswer_masks_next_answer_key_witness :
    (smallSubmitRes.2.current_question.map (fun q => q.correct_answer)) =
      some QOption.A ∧
    smallSubmitRes.2.current_question =
      some { mkQuestion 1 with correct_answer := QOption.A } ∧
    (mkQuestion 1).correct_answer = QOption.B := by
  have h := submitQuizAnswer_masks_next_answer_key smallDb 7 100 1 QOption.B 1000
    smallAtt smallSubmitRes.1 smallSubmitRes.2 rfl rfl
  have h2 := h.2 (mkQuestion 1) rfl rfl
  refine ⟨?_, h2.1, rfl⟩
  rw [h2.1]
  exact congrArg some (h.1 { mkQuestion 1 with correct_answer := QOption.A } h2.1)

/-- C1 (code bug): the snapshots returned by `startQuizAttempt` and
`getCurrentQuizState` include the current question's true
`correct_answer` (here B) instead of withholding it, and the returned
snapshot changes when only that secret changes (`leakDb` vs `leakDbC`) —
the answer key leaks to the taker on both paths. -/
theorem startQuizAttempt_leaks_answer_key :
    ((startQuizAttempt 1 1 0 leakDb).toOption.map (fun p =>
        p.2.current_question.map (fun q => q.correct_answer)))
      = some (some QOption.B) ∧
    ((startQuizAttempt 1 1 0 leakDb).toOption.bind (fun p =>
        (getCurrentQuizState 5 1000 p.1).2.map (fun s =>
          s.current_question.map (fun q => q.correct_answer))))
      = some (some QOption.B) ∧
    ((startQuizAttempt 1 1 0 leakDbC).toOption.map (fun p =>
        p.2.current_question.map (fun q => q.correct_answer)))
      = some (some QOption.C) :=
  ⟨rfl, rfl, rfl⟩

/-- C3: at most one IN_PROGRESS attempt per (user, package) pair — the
invariant is preserved by every engine operation; starting while an
IN_PROGRESS attempt exists returns that attempt's snapshot with the
database unchanged, and a row is created only when none exists. -/
theorem startQuizAttempt_single_in_progress :
    (∀ (db : DB) (op : Op), AtMostOne db → AtMostOne (applyOp db op)) ∧
    (∀ (db : DB) (pid u : Nat) (now : Int) (db' : DB)
       (snap : CurrentQuizState) (att : QuizAttempt),
      (db.attempts.filter (inProgressFor u pid)).head? = some att →
      startQuizAttempt pid u now db = .ok (db', snap) →
      db' = db ∧ snap.attempt_id = att.id) ∧
    (∀ (db : DB) (pid u : Nat) (now : Int) (db' : DB)
       (snap : CurrentQuizState),
      (db.attempts.filter (inProgressFor u pid)).head? = none →
      startQuizAttempt pid u now db = .ok (db', snap) →
      db'.attempts = db.attempts ++ [newAttemptRow db pid u now] ∧
      snap.attempt_id = db.nextAttemptId ∧
      (newAttemptRow db pid u now).id = db.nextAttemptId ∧
      (newAttemptRow db pid u now).user_id = u ∧
      (newAttemptRow db pid u now).quiz_package_id = pid ∧
      (newAttemptRow db pid u now).status = AttemptStatus.IN_PROGRESS) := by
  refine ⟨atMostOne_applyOp, ?_, ?_⟩
  · intro db pid u now db' snap att hex h
    cases hpkg : (db.packages.filter (fun p => p.id == pid)).head? with
    | none =>
      rw [start_nopkg_red db pid u now hpkg] at h
      exact Except.noConfusion h
    | some pkg =>
      by_cases hcnt : (db.questions.filter
          (fun q => q.quiz_package_id == pid)).length = 110
      · rw [start_resume_red db pid u now pkg att hpkg hcnt hex] at h
        rw [Except.ok.injEq, Prod.mk.injEq] at h
        exact ⟨h.1.symm, by rw [← h.2]; rfl⟩
      · rw [start_badcount_red db pid u now pkg hpkg hcnt] at h
        exact Except.noConfusion h
  · intro db pid u now db' snap hex h
    cases hpkg : (db.packages.filter (fun p => p.id == pid)).head? with
    | none =>
      rw [start_nopkg_red db pid u now hpkg] at h
      exact Except.noConfusion h
    | some pkg =>
      by_cases hcnt : (db.questions.filter
          (fun q => q.quiz_package_id == pid)).length = 110
      · rw [start_create_red db pid u now pkg hpkg hcnt hex] at h
        rw [Except.ok.injEq, Prod.mk.injEq] at h
        refine ⟨by rw [← h.1]; rfl, by rw [← h.2]; rfl, rfl, rfl, rfl, rfl⟩
      · rw [start_badcount_red db pid u now pkg hpkg hcnt] at h
        exact Except.noConfusion h

theorem startQuizAttempt_single_in_progress_witness :
    AtMostOne (applyOp smallDb (Op.submit 7 100 QOption.B 1 1000)) ∧
    (resumeRes.1 = leakDb1 ∧ resumeRes.2.attempt_id = startedAttempt.id) ∧
    (createRes.1.attempts = leakDb.attempts ++ [newAttemptRow leakDb 1 1 0] ∧
      createRes.2.attempt_id = leakDb.nextAttemptId) := by
  refine ⟨?_, ?_, ?_⟩
  · exact startQuizAttempt_single_in_progress.1 smallDb
      (Op.submit 7 100 QOption.B 1 1000)
      (fun u p => le_trans (List.length_filter_le _ _) (by decide))
  · exact startQuizAttempt_single_in_progress.2.1 leakDb1 1 1 999
      resumeRes.1 resumeRes.2 startedAttempt rfl rfl
  · have h := startQuizAttempt_single_in_progress.2.2 leakDb 1 1 0
      createRes.1 createRes.2 rfl rfl
    exact ⟨h.1, h.2.1⟩

/-- C5: attempt status moves only along IN_PROGRESS → {COMPLETED,
TIME_OUT}: on a well-formed database every operation leaves terminal
attempt rows bit-for-bit unchanged, any status change starts from
IN_PROGRESS and lands in a terminal status, and no sequence of operations
ever alters a terminal row. -/
theorem terminal_status_immutable :
    (∀ (db : DB) (op : Op) (i : Nat) (a : QuizAttempt),
      WellFormed db → db.attempts[i]? = some a →
      ∃ b, (applyOp db op).attempts[i]? = some b ∧
        (Terminal a.status → b = a) ∧
        (b.status ≠ a.status → a.status = AttemptStatus.IN_PROGRESS ∧
          Terminal b.status)) ∧
    (∀ (db : DB) (ops : List Op) (i : Nat) (a : QuizAttempt),
      WellFormed db → db.attempts[i]? = some a → Terminal a.status →
      (ops.foldl applyOp db).attempts[i]? = some a) :=
  ⟨attempts_pointwise, terminal_frame_foldl⟩

theorem terminal_status_immutable_witness :
    ((applyOp terminalDb (Op.complete 7 1 5000)).attempts[0]? =
      some terminalAtt) ∧
    (([Op.getState 7 777, Op.submit 7 100 QOption.B 1 5, Op.complete 7 1 9,
       Op.start 1 1 4].foldl applyOp terminalDb).attempts[0]? =
      some terminalAtt) := by
  have hwf : WellFormed terminalDb := by
    constructor
    · exact List.pairwise_singleton _ _
    · intro a ha
      have he : terminalDb.attempts = [terminalAtt] := rfl
      rw [he, List.mem_singleton] at ha
      subst ha
      decide
  constructor
  · obtain ⟨b, hb, hba, _⟩ := terminal_status_immutable.1 terminalDb
      (Op.complete 7 1 5000) 0 terminalAtt hwf rfl
    rw [hba (Or.inr rfl)] at hb
    exact hb
  · exact terminal_status_immutable.2 terminalDb _ 0 terminalAtt hwf rfl
      (Or.inr rfl)

/-- C6: when the recomputed remaining time of an IN_PROGRESS attempt is
0, `getCurrentQuizState` is a side-effecting read: it persists
status = TIME_OUT, completed_at = now and time_remaining_seconds = 0 on
the attempt row and returns null; a missing or already-terminal attempt
yields null with the database untouched. -/
theorem getCurrentQuizState_timeout_spec (db : DB) (aid : Nat) (now : Int)
    (att : QuizAttempt) (pkg : QuizPackage) :
    ((db.attempts.filter (fun a => a.id == aid)).head? = some att →
     (db.packages.filter (fun p => p.id == att.quiz_package_id)).head? = some pkg →
     att.status = AttemptStatus.IN_PROGRESS →
     max 0 (att.time_remaining_seconds - elapsedSeconds att.started_at now) = 0 →
     getCurrentQuizState aid now db = (timedOutDb db aid now, none) ∧
     (∀ (i : Nat) (a : QuizAttempt), db.attempts[i]? = some a →
       (timedOutDb db aid now).attempts[i]? = some (timedOutRow aid now a)) ∧
     (∀ a : QuizAttempt, (a.id == aid) = true →
       (timedOutRow aid now a).status = AttemptStatus.TIME_OUT ∧
       (timedOutRow aid now a).completed_at = some now ∧
       (timedOutRow aid now a).time_remaining_seconds = 0)) ∧
    ((db.attempts.filter (fun a => a.id == aid)).head? = none →
     getCurrentQuizState aid now db = (db, none)) ∧
    ((db.attempts.filter (fun a => a.id == aid)).head? = some att →
     Terminal att.status →
     getCurrentQuizState aid now db = (db, none)) := by
  refine ⟨?_, ?_, ?_⟩
  · intro hatt hpkg hip hz
    refine ⟨getState_timeout_red db aid now att pkg hatt hpkg hip hz, ?_, ?_⟩
    · intro i a ha
      simp only [timedOutDb]
      rw [List.getElem?_map, ha]
      rfl
    · intro a hida
      exact ⟨by simp [timedOutRow, hida], by simp [timedOutRow, hida],
        by simp [timedOutRow, hida]⟩
  · intro hatt
    exact getState_noatt_red db aid now hatt
  · intro hatt hterm
    exact getState_terminal_red db aid now att hatt hterm

theorem getCurrentQuizState_timeout_spec_witness :
    (getCurrentQuizState 7 7200000 smallDb = (timedOutDb smallDb 7 7200000, none) ∧
     (timedOutDb smallDb 7 7200000).attempts[0]? =
       some (timedOutRow 7 7200000 smallAtt) ∧
     (timedOutRow 7 7200000 smallAtt).status = AttemptStatus.TIME_OUT ∧
     (timedOutRow 7 7200000 smallAtt).completed_at = some 7200000 ∧
     (timedOutRow 7 7200000 smallAtt).time_remaining_seconds = 0) ∧
    getCurrentQuizState 99 0 smallDb = (smallDb, none) ∧
    getCurrentQuizState 7 0 terminalDb = (terminalDb, none) := by
  refine ⟨?_, ?_, ?_⟩
  · have h := (getCurrentQuizState_timeout_spec smallDb 7 7200000 smallAtt
      { id := 1, title := "t", created_by := 2 }).1 rfl rfl rfl (by decide)
    have hrow := h.2.2 smallAtt rfl
    exact ⟨h.1, h.2.1 0 smallAtt rfl, hrow.1, hrow.2.1, hrow.2.2⟩
  · exact (getCurrentQuizState_timeout_spec smallDb 99 0 smallAtt
      { id := 1, title := "t", created_by := 2 }).2.1 rfl
  · exact (getCurrentQuizState_timeout_spec terminalDb 7 0 terminalAtt
      { id := 1, title := "t", created_by := 2 }).2.2 rfl (Or.inr rfl)

/-- C7: a `submitQuizAnswer` whose question_id is not the id of the
question at the attempt's current index — including when no question
exists at that index — fails with the InvalidState error and performs no
write: the database is unchanged. -/
theorem submitQuizAnswer_mismatch_rejected (db : DB) (aid qid u : Nat)
    (sel : QOption) (now : Int) (att : QuizAttempt) (pkg : QuizPackage)
    (hatt : (db.attempts.filter (fun a => a.id == aid && a.user_id == u &&
        a.status == AttemptStatus.IN_PROGRESS)).head? = some att)
    (hpkg : (db.packages.filter (fun p => p.id == att.quiz_package_id)).head? = some pkg)
    (hne : (sortByOrderIndex (db.questions.filter
        (fun q => q.quiz_package_id == att.quiz_package_id))).isEmpty = false)
    (hmis : ∀ cq : QuizQuestion, (sortByOrderIndex (db.questions.filter
        (fun q => q.quiz_package_id == att.quiz_package_id)))[att.current_question_index]? =
          some cq → cq.id ≠ qid) :
    submitQuizAnswer aid qid sel u now db =
      .error "Question ID does not match current question" ∧
    applyOp db (.submit aid qid sel u now) = db := by
  have hmain := submit_mismatch_red db aid qid u sel now att pkg hatt hpkg hne hmis
  exact ⟨hmain, by simp [applyOp, hmain]⟩

theorem submitQuizAnswer_mismatch_rejected_witness :
    submitQuizAnswer 7 101 QOption.B 1 1000 smallDb =
      .error "Question ID does not match current question" ∧
    applyOp smallDb (.submit 7 101 QOption.B 1 1000) = smallDb := by
  refine submitQuizAnswer_mismatch_rejected smallDb 7 101 1 QOption.B 1000
    smallAtt { id := 1, title := "t", created_by := 2 } rfl rfl rfl ?_
  intro cq hc
  have h0 : (sortByOrderIndex (smallDb.questions.filter
      (fun q => q.quiz_package_id == smallAtt.quiz_package_id)))[smallAtt.current_question_index]? =
        some (mkQuestion 0) := rfl
  rw [h0] at hc
  cases hc
  decide

/-- C8: `startQuizAttempt` on an existing package with N ≠ 110 questions
fails with the InvalidState message reporting N (the rendered count is a
suffix of the message) and creates no attempt; with exactly 110 questions
the gate always passes and a snapshot is returned. -/
theorem startQuizAttempt_count_gate (db : DB) (pid u : Nat) (now : Int)
    (pkg : QuizPackage)
    (hpkg : (db.packages.filter (fun p => p.id == pid)).head? = some pkg) :
    (∀ n : Nat, n = (db.questions.filter
        (fun q => q.quiz_package_id == pid)).length →
       n ≠ 110 →
       startQuizAttempt pid u now db = .error (countQuestionsMsg n) ∧
       (toString n).data <:+ (countQuestionsMsg n).data ∧
       applyOp db (.start pid u now) = db) ∧
    ((db.questions.filter (fun q => q.quiz_package_id == pid)).length = 110 →
       (startQuizAttempt pid u now db).toOption.isSome = true) := by
  constructor
  · intro n hn hne
    have herr : startQuizAttempt pid u now db = .error (countQuestionsMsg n) := by
      rw [hn]
      exact start_badcount_red db pid u now pkg hpkg (hn ▸ hne)
    refine ⟨herr, ?_, by simp [applyOp, herr]⟩
    exact ⟨("Quiz package must have exactly 110 questions, found ").data, by
      simp [countQuestionsMsg]⟩
  · intro h110
    cases hex : (db.attempts.filter (fun a =>
        a.user_id == u && a.quiz_package_id == pid &&
          a.status == AttemptStatus.IN_PROGRESS)).head? with
    | some a0 =>
      rw [start_resume_red db pid u now pkg a0 hpkg h110 hex]
      rfl
    | none =>
      rw [start_create_red db pid u now pkg hpkg h110 hex]
      rfl

theorem startQuizAttempt_count_gate_witness :
    (startQuizAttempt 1 1 0 smallDb = .error (countQuestionsMsg 2) ∧
     (toString 2).data <:+ (countQuestionsMsg 2).data ∧
     applyOp smallDb (.start 1 1 0) = smallDb) ∧
    (startQuizAttempt 1 1 0 leakDb).toOption.isSome = true := by
  constructor
  · exact (startQuizAttempt_count_gate smallDb 1 1 0
      { id := 1, title := "t", created_by := 2 } rfl).1 2 rfl (by decide)
  · exact (startQuizAttempt_count_gate leakDb 1 1 0
      { id := 1, title := "t", created_by := 2 } rfl).2 rfl

end QuizApp
